import Mathlib

/-!
Verification development for the LT7683 TFT-controller driver crate.

The driver (src/lib.rs) issues one-byte register writes and status reads
through a transport trait (`LT7683Interface`).  We embed the driver shallowly:

* a `Register` namespace of address constants mirrors the `#[repr(u8)]`
  enum in src/lib.rs, and `RegistersRs` mirrors the near-identical copy of
  the register map in src/registers.rs (which additionally contains the
  block-transfer-engine group);
* driver methods become state-passing functions over an event trace
  (`List Event`), where an abstract oracle (`Iface`) supplies the result of
  the k-th call of each transport operation, so transport failures and
  status-byte sequences are modelled faithfully;
* the SPI transport implementation (`impl LT7683Interface for SpiInterface`)
  is embedded separately over an abstract SPI bus (`SpiBus`), recording the
  byte frames put on the wire;
* Rust `u8`/`u16` values are modelled as `Nat`, with `x as u8` rendered as
  `x % 256` and `u16` multiplication reduced mod 65536 where the source
  performs it.
-/

namespace LT7683

/-- Events observable at the transport / board boundary: register-address
writes, data-byte writes, data reads, status reads, delays (ms/us) and
edges on the reset output pin. -/
inductive Event where
  | cmd (reg : Nat)
  | dat (b : Nat)
  | readDat
  | readSts
  | delayMs (n : Nat)
  | delayUs (n : Nat)
  | resetLow
  | resetHigh
  deriving DecidableEq, Repr

def Event.isCmd : Event → Bool
  | .cmd _ => true
  | _ => false

def Event.isDat : Event → Bool
  | .dat _ => true
  | _ => false

def Event.isReadDat : Event → Bool
  | .readDat => true
  | _ => false

def Event.isReadSts : Event → Bool
  | .readSts => true
  | _ => false

def Event.isLow : Event → Bool
  | .resetLow => true
  | _ => false

def Event.isHigh : Event → Bool
  | .resetHigh => true
  | _ => false

end LT7683

/- Register address map of the driver crate, transcribed from the
`#[repr(u8)]` enum `Register` in src/lib.rs: each variant is represented by
its one-byte discriminant. -/
namespace Register

def Srr : Nat := 0x00
def Ccr : Nat := 0x01
def Macr : Nat := 0x02
def Icr : Nat := 0x03
def Mrwdp : Nat := 0x04
def Ppllc1 : Nat := 0x05
def Ppllc2 : Nat := 0x06
def Mpllc1 : Nat := 0x07
def Mpllc2 : Nat := 0x08
def Cpllc1 : Nat := 0x09
def Cpllc2 : Nat := 0x0A
def Mpwctr : Nat := 0x10
def Pipcdep : Nat := 0x11
def Dpcr : Nat := 0x12
def Pcsr : Nat := 0x13
def Hdwr : Nat := 0x14
def Hdwftr : Nat := 0x15
def Hndr : Nat := 0x16
def Hndftr : Nat := 0x17
def Hstr : Nat := 0x18
def Hpwr : Nat := 0x19
def Vdhr1 : Nat := 0x1A
def Vdhr2 : Nat := 0x1B
def Vndr1 : Nat := 0x1C
def Vndr2 : Nat := 0x1D
def Vstr : Nat := 0x1E
def Vpwr : Nat := 0x1F
def Misa1 : Nat := 0x20
def Misa2 : Nat := 0x21
def Misa3 : Nat := 0x22
def Misa4 : Nat := 0x23
def Miw1 : Nat := 0x24
def Miw2 : Nat := 0x25
def Mwulx1 : Nat := 0x26
def Mwulx2 : Nat := 0x27
def Mwuly1 : Nat := 0x28
def Mwuly2 : Nat := 0x29
def Pwdulx1 : Nat := 0x2A
def Pwdulx2 : Nat := 0x2B
def Pwduly1 : Nat := 0x2C
def Pwduly2 : Nat := 0x2D
def Pisa1 : Nat := 0x2E
def Pisa2 : Nat := 0x2F
def Pisa3 : Nat := 0x30
def Pisa4 : Nat := 0x31
def Piw1 : Nat := 0x32
def Piw2 : Nat := 0x33
def Pwiulx1 : Nat := 0x34
def Pwiulx2 : Nat := 0x35
def Pwiuly1 : Nat := 0x36
def Pwiuly2 : Nat := 0x37
def Pww1 : Nat := 0x38
def Pww2 : Nat := 0x39
def Pwh1 : Nat := 0x3A
def Pwh2 : Nat := 0x3B
def Gtccr : Nat := 0x3C
def Btcr : Nat := 0x3D
def Curhs : Nat := 0x3E
def Curvs : Nat := 0x3F
def Gchp1 : Nat := 0x40
def Gchp2 : Nat := 0x41
def Gcvp1 : Nat := 0x42
def Gcvp2 : Nat := 0x43
def Gcc0 : Nat := 0x44
def Gcc1 : Nat := 0x45
def Cvssa1 : Nat := 0x50
def Cvssa2 : Nat := 0x51
def Cvssa3 : Nat := 0x52
def Cvssa4 : Nat := 0x53
def CvsImwth1 : Nat := 0x54
def CvsImwth2 : Nat := 0x55
def AwulX1 : Nat := 0x56
def AwulX2 : Nat := 0x57
def AwulY1 : Nat := 0x58
def AwulY2 : Nat := 0x59
def AwWth1 : Nat := 0x5A
def AwWth2 : Nat := 0x5B
def AwHt1 : Nat := 0x5C
def AwHt2 : Nat := 0x5D
def AwColor : Nat := 0x5E
def Curh1 : Nat := 0x5F
def Curh2 : Nat := 0x60
def Curv1 : Nat := 0x61
def Curv2 : Nat := 0x62
def FCurx1 : Nat := 0x63
def FCurx2 : Nat := 0x64
def FCury1 : Nat := 0x65
def FCury2 : Nat := 0x66
def Dcr0 : Nat := 0x67
def Dlhsr1 : Nat := 0x68
def Dlhsr2 : Nat := 0x69
def Dlvsr1 : Nat := 0x6A
def Dlvsr2 : Nat := 0x6B
def Dlher1 : Nat := 0x6C
def Dlher2 : Nat := 0x6D
def Dlver1 : Nat := 0x6E
def Dlver2 : Nat := 0x6F
def Dtph1 : Nat := 0x70
def Dtph2 : Nat := 0x71
def Dtpv1 : Nat := 0x72
def Dtpv2 : Nat := 0x73
def Dcr1 : Nat := 0x76
def EllA1 : Nat := 0x77
def EllA2 : Nat := 0x78
def EllB1 : Nat := 0x79
def EllB2 : Nat := 0x7A
def Dehr1 : Nat := 0x7B
def Dehr2 : Nat := 0x7C
def Devr1 : Nat := 0x7D
def Devr2 : Nat := 0x7E
def Fgcr : Nat := 0xD2
def Fgcg : Nat := 0xD3
def Fgcb : Nat := 0xD4
def Ccr0 : Nat := 0xCC
def Ccr1 : Nat := 0xCD
def Fldr : Nat := 0xD0
def F2fssr : Nat := 0xD1
def Bgcr : Nat := 0xD5
def Bgcg : Nat := 0xD6
def Bgcb : Nat := 0xD7
def CgramStr0 : Nat := 0xDB
def Pmu : Nat := 0xDF
def Sdrar : Nat := 0xE0
def Sdrmd : Nat := 0xE1
def SdrRef1 : Nat := 0xE2
def SdrRef2 : Nat := 0xE3
def Sdrcr : Nat := 0xE4
def Gpioad : Nat := 0xF0
def Gpioa : Nat := 0xF1
def Gpiob : Nat := 0xF2
def Gpiocd : Nat := 0xF3
def Gpioc : Nat := 0xF4
def Gpiodd : Nat := 0xF5
def Gpiod : Nat := 0xF6

end Register

/- Register address map transcribed from the `#[repr(u8)]` enum `Register`
in src/registers.rs, a second snapshot of the map that additionally defines
the block-transfer-engine (BTE) register group (0x90..0xB4). -/
namespace RegistersRs

def Srr : Nat := 0x00
def Ccr : Nat := 0x01
def Macr : Nat := 0x02
def Icr : Nat := 0x03
def Mrwdp : Nat := 0x04
def Ppllc1 : Nat := 0x05
def Ppllc2 : Nat := 0x06
def Mpllc1 : Nat := 0x07
def Mpllc2 : Nat := 0x08
def Cpllc1 : Nat := 0x09
def Cpllc2 : Nat := 0x0A
def Mpwctr : Nat := 0x10
def Pipcdep : Nat := 0x11
def Dpcr : Nat := 0x12
def Pcsr : Nat := 0x13
def Hdwr : Nat := 0x14
def Hdwftr : Nat := 0x15
def Hndr : Nat := 0x16
def Hndftr : Nat := 0x17
def Hstr : Nat := 0x18
def Hpwr : Nat := 0x19
def Vdhr1 : Nat := 0x1A
def Vdhr2 : Nat := 0x1B
def Vndr1 : Nat := 0x1C
def Vndr2 : Nat := 0x1D
def Vstr : Nat := 0x1E
def Vpwr : Nat := 0x1F
def Misa1 : Nat := 0x20
def Misa2 : Nat := 0x21
def Misa3 : Nat := 0x22
def Misa4 : Nat := 0x23
def Miw1 : Nat := 0x24
def Miw2 : Nat := 0x25
def Mwulx1 : Nat := 0x26
def Mwulx2 : Nat := 0x27
def Mwuly1 : Nat := 0x28
def Mwuly2 : Nat := 0x29
def Pwdulx1 : Nat := 0x2A
def Pwdulx2 : Nat := 0x2B
def Pwduly1 : Nat := 0x2C
def Pwduly2 : Nat := 0x2D
def Pisa1 : Nat := 0x2E
def Pisa2 : Nat := 0x2F
def Pisa3 : Nat := 0x30
def Pisa4 : Nat := 0x31
def Piw1 : Nat := 0x32
def Piw2 : Nat := 0x33
def Pwiulx1 : Nat := 0x34
def Pwiulx2 : Nat := 0x35
def Pwiuly1 : Nat := 0x36
def Pwiuly2 : Nat := 0x37
def Pww1 : Nat := 0x38
def Pww2 : Nat := 0x39
def Pwh1 : Nat := 0x3A
def Pwh2 : Nat := 0x3B
def Gtccr : Nat := 0x3C
def Btcr : Nat := 0x3D
def Curhs : Nat := 0x3E
def Curvs : Nat := 0x3F
def Gchp1 : Nat := 0x40
def Gchp2 : Nat := 0x41
def Gcvp1 : Nat := 0x42
def Gcvp2 : Nat := 0x43
def Gcc0 : Nat := 0x44
def Gcc1 : Nat := 0x45
def Cvssa1 : Nat := 0x50
def Cvssa2 : Nat := 0x51
def Cvssa3 : Nat := 0x52
def Cvssa4 : Nat := 0x53
def CvsImwth1 : Nat := 0x54
def CvsImwth2 : Nat := 0x55
def AwulX1 : Nat := 0x56
def AwulX2 : Nat := 0x57
def AwulY1 : Nat := 0x58
def AwulY2 : Nat := 0x59
def AwWth1 : Nat := 0x5A
def AwWth2 : Nat := 0x5B
def AwHt1 : Nat := 0x5C
def AwHt2 : Nat := 0x5D
def AwColor : Nat := 0x5E
def Curh1 : Nat := 0x5F
def Curh2 : Nat := 0x60
def Curv1 : Nat := 0x61
def Curv2 : Nat := 0x62
def FCurx1 : Nat := 0x63
def FCurx2 : Nat := 0x64
def FCury1 : Nat := 0x65
def FCury2 : Nat := 0x66
def Dcr0 : Nat := 0x67
def Dlhsr1 : Nat := 0x68
def Dlhsr2 : Nat := 0x69
def Dlvsr1 : Nat := 0x6A
def Dlvsr2 : Nat := 0x6B
def Dlher1 : Nat := 0x6C
def Dlher2 : Nat := 0x6D
def Dlver1 : Nat := 0x6E
def Dlver2 : Nat := 0x6F
def Dtph1 : Nat := 0x70
def Dtph2 : Nat := 0x71
def Dtpv1 : Nat := 0x72
def Dtpv2 : Nat := 0x73
def Dcr1 : Nat := 0x76
def EllA1 : Nat := 0x77
def EllA2 : Nat := 0x78
def EllB1 : Nat := 0x79
def EllB2 : Nat := 0x7A
def Dehr1 : Nat := 0x7B
def Dehr2 : Nat := 0x7C
def Devr1 : Nat := 0x7D
def Devr2 : Nat := 0x7E
def Fgcr : Nat := 0xD2
def Fgcg : Nat := 0xD3
def Fgcb : Nat := 0xD4
def BteCtrl0 : Nat := 0x90
def BteCtrl1 : Nat := 0x91
def BteColr : Nat := 0x92
def S0Str0 : Nat := 0x93
def S0Str1 : Nat := 0x94
def S0Str2 : Nat := 0x95
def S0Str3 : Nat := 0x96
def S0Wth0 : Nat := 0x97
def S0Wth1 : Nat := 0x98
def S0X0 : Nat := 0x99
def S0X1 : Nat := 0x9A
def S0Y0 : Nat := 0x9B
def S0Y1 : Nat := 0x9C
def S1Str0 : Nat := 0x9D
def S1Str1 : Nat := 0x9E
def S1Str2 : Nat := 0x9F
def S1Str3 : Nat := 0xA0
def S1Wth0 : Nat := 0xA1
def S1Wth1 : Nat := 0xA2
def S1X0 : Nat := 0xA3
def S1X1 : Nat := 0xA4
def S1Y0 : Nat := 0xA5
def S1Y1 : Nat := 0xA6
def DtStr0 : Nat := 0xA7
def DtStr1 : Nat := 0xA8
def DtStr2 : Nat := 0xA9
def DtStr3 : Nat := 0xAA
def DtWth0 : Nat := 0xAB
def DtWth1 : Nat := 0xAC
def DtX0 : Nat := 0xAD
def DtX1 : Nat := 0xAE
def DtY0 : Nat := 0xAF
def DtY1 : Nat := 0xB0
def BteWth0 : Nat := 0xB1
def BteWth1 : Nat := 0xB2
def BteHig0 : Nat := 0xB3
def BteHig1 : Nat := 0xB4
def Ccr0 : Nat := 0xCC
def Ccr1 : Nat := 0xCD
def Fldr : Nat := 0xD0
def F2fssr : Nat := 0xD1
def Bgcr : Nat := 0xD5
def Bgcg : Nat := 0xD6
def Bgcb : Nat := 0xD7
def CgramStr0 : Nat := 0xDB
def Pmu : Nat := 0xDF
def Sdrar : Nat := 0xE0
def Sdrmd : Nat := 0xE1
def SdrRef1 : Nat := 0xE2
def SdrRef2 : Nat := 0xE3
def Sdrcr : Nat := 0xE4
def Gpioad : Nat := 0xF0
def Gpioa : Nat := 0xF1
def Gpiob : Nat := 0xF2
def Gpiocd : Nat := 0xF3
def Gpioc : Nat := 0xF4
def Gpiodd : Nat := 0xF5
def Gpiod : Nat := 0xF6

end RegistersRs

namespace LT7683

/-- Mirror of the Rust `ColorDepth` enum. -/
inductive ColorDepth where
  | Bpp8
  | Bpp16
  | Bpp24
  deriving DecidableEq, Repr

/-- Discriminants of the `#[repr-style]` `ColorDepth` enum (`Bpp8 = 0x00`,
`Bpp16 = 0x01`, `Bpp24 = 0x02`), i.e. the value produced by `as u8`. -/
def ColorDepth.code : ColorDepth → Nat
  | .Bpp8 => 0x00
  | .Bpp16 => 0x01
  | .Bpp24 => 0x02

/-- Mirror of the Rust `DisplayConfig` struct (all `u16` fields as `Nat`). -/
structure DisplayConfig where
  width : Nat
  height : Nat
  h_back_porch : Nat
  h_front_porch : Nat
  h_sync_width : Nat
  v_back_porch : Nat
  v_front_porch : Nat
  v_sync_width : Nat
  color_depth : ColorDepth
  deriving DecidableEq, Repr

/-- Mirror of `impl Default for DisplayConfig` (7-inch 1024x600 panel). -/
def DisplayConfig.default : DisplayConfig :=
  { width := 1024
    height := 600
    h_back_porch := 160
    h_front_porch := 160
    h_sync_width := 70
    v_back_porch := 23
    v_front_porch := 12
    v_sync_width := 10
    color_depth := ColorDepth.Bpp16 }

/-- Oracle for the transport trait `LT7683Interface` and the reset
`OutputPin`: for each operation, the result of its k-th invocation
(counted from 0).  An `Except.error` models the transport reporting a
failure on that call. -/
structure Iface (ε : Type) where
  writeCommandRes : Nat → Except ε Unit
  writeDataRes : Nat → Except ε Unit
  readDataRes : Nat → Except ε Nat
  readStatusRes : Nat → Except ε Nat
  setLowRes : Nat → Except ε Unit
  setHighRes : Nat → Except ε Unit

/-- Driver computations: state is the event trace so far; the result is the
Rust `Result` value.  On error the trace up to the failing call is kept. -/
def M (ε α : Type) : Type := List Event → List Event × Except ε α

def M.pure (a : α) : M ε α := fun t => (t, Except.ok a)

def M.bind (x : M ε α) (f : α → M ε β) : M ε β := fun t =>
  match x t with
  | (t', Except.ok a) => f a t'
  | (t', Except.error e) => (t', Except.error e)

instance : Monad (M ε) where
  pure := M.pure
  bind := M.bind

theorem M.pure_eval (a : α) (t : List Event) :
    (Pure.pure a : M ε α) t = (t, Except.ok a) := rfl

theorem M.bind_eval (x : M ε α) (f : α → M ε β) (t : List Event) :
    (x >>= f) t =
      match x t with
      | (t', Except.ok a) => f a t'
      | (t', Except.error e) => (t', Except.error e) := rfl

/-- The k-th invocation of an operation is identified by the number of its
events already in the trace. -/
def opWriteCommand (i : Iface ε) (reg : Nat) : M ε Unit := fun t =>
  (t ++ [Event.cmd reg], i.writeCommandRes (t.countP (fun e => Event.isCmd e)))

def opWriteData (i : Iface ε) (b : Nat) : M ε Unit := fun t =>
  (t ++ [Event.dat b], i.writeDataRes (t.countP (fun e => Event.isDat e)))

def opReadStatus (i : Iface ε) : M ε Nat := fun t =>
  (t ++ [Event.readSts], i.readStatusRes (t.countP (fun e => Event.isReadSts e)))

def opDelayMs (n : Nat) : M ε Unit := fun t =>
  (t ++ [Event.delayMs n], Except.ok ())

def opSetLow (i : Iface ε) : M ε Unit := fun t =>
  (t ++ [Event.resetLow], i.setLowRes (t.countP (fun e => Event.isLow e)))

def opSetHigh (i : Iface ε) : M ε Unit := fun t =>
  (t ++ [Event.resetHigh], i.setHighRes (t.countP (fun e => Event.isHigh e)))

/-- Rust `let _ = expr;` — run the operation and discard its `Result`. -/
def M.discard (x : M ε α) : M ε Unit := fun t => ((x t).1, Except.ok ())

/-- `write_register`: `write_command(reg)` then `write_data(data)`,
propagating either failure (src/lib.rs). -/
def write_register (i : Iface ε) (reg data : Nat) : M ε Unit := do
  opWriteCommand i reg
  opWriteData i data

/-- `read_status`: delegates to the transport (src/lib.rs). -/
def read_status (i : Iface ε) : M ε Nat :=
  opReadStatus i

/-- `is_sdram_ready`: status bit 2 (src/lib.rs). -/
def is_sdram_ready (i : Iface ε) : M ε Bool := do
  let status ← read_status i
  Pure.pure ((status &&& 0x04) != 0)

/-- Body of the `for _ in 0..100` loop of `wait_sdram_ready`, with the
remaining iteration count explicit. -/
def wait_sdram_ready_go (i : Iface ε) : Nat → M ε Bool
  | 0 => Pure.pure false
  | n + 1 => do
      let ready ← is_sdram_ready i
      if ready then
        Pure.pure true
      else do
        opDelayMs 10
        wait_sdram_ready_go i n

/-- `wait_sdram_ready`: poll `is_sdram_ready` up to 100 times with a 10 ms
delay between attempts; `Ok(false)` on timeout (src/lib.rs). -/
def wait_sdram_ready (i : Iface ε) : M ε Bool :=
  wait_sdram_ready_go i 100

/-- `hardware_reset`: drive the reset pin low (result discarded), wait
10 ms, drive it high (result discarded), wait 100 ms, return `Ok(())`
(src/lib.rs). -/
def hardware_reset (i : Iface ε) : M ε Unit := do
  M.discard (opSetLow i)
  opDelayMs 10
  M.discard (opSetHigh i)
  opDelayMs 100

/-- `set_foreground_color` (src/lib.rs): the color parameter is a `u16`.
At `Bpp16` it is decoded as RGB565 and each channel expanded to the 8-bit
register range; at any other depth the high byte goes to Fgcr, the low byte
to Fgcg and Fgcb is written 0. -/
def set_foreground_color (i : Iface ε) (cfg : DisplayConfig) (color : Nat) :
    M ε Unit :=
  match cfg.color_depth with
  | ColorDepth.Bpp16 => do
      let r := ((color >>> 11) &&& 0x1F) <<< 3
      let g := ((color >>> 5) &&& 0x3F) <<< 2
      let b := ((color >>> 0) &&& 0x1F) <<< 3
      write_register i Register.Fgcr (r % 256)
      write_register i Register.Fgcg (g % 256)
      write_register i Register.Fgcb (b % 256)
  | _ => do
      write_register i Register.Fgcr ((color >>> 8) % 256)
      write_register i Register.Fgcg (color % 256)
      write_register i Register.Fgcb 0

/-- `draw_filled_rectangle` (src/lib.rs): foreground color, the four
little-endian coordinate pairs, then `Dcr0 = 0xB0`; no status polling. -/
def draw_filled_rectangle (i : Iface ε) (cfg : DisplayConfig)
    (x1 y1 x2 y2 color : Nat) : M ε Unit := do
  set_foreground_color i cfg color
  write_register i Register.Dlhsr1 (x1 % 256)
  write_register i Register.Dlhsr2 ((x1 >>> 8) % 256)
  write_register i Register.Dlvsr1 (y1 % 256)
  write_register i Register.Dlvsr2 ((y1 >>> 8) % 256)
  write_register i Register.Dlher1 (x2 % 256)
  write_register i Register.Dlher2 ((x2 >>> 8) % 256)
  write_register i Register.Dlver1 (y2 % 256)
  write_register i Register.Dlver2 ((y2 >>> 8) % 256)
  write_register i Register.Dcr0 0xB0

/-- `draw_line` (src/lib.rs): same coordinate setup as the rectangle but
triggered by `Dcr0 = 0x80`; no status polling. -/
def draw_line (i : Iface ε) (cfg : DisplayConfig)
    (x1 y1 x2 y2 color : Nat) : M ε Unit := do
  set_foreground_color i cfg color
  write_register i Register.Dlhsr1 (x1 % 256)
  write_register i Register.Dlhsr2 ((x1 >>> 8) % 256)
  write_register i Register.Dlvsr1 (y1 % 256)
  write_register i Register.Dlvsr2 ((y1 >>> 8) % 256)
  write_register i Register.Dlher1 (x2 % 256)
  write_register i Register.Dlher2 ((x2 >>> 8) % 256)
  write_register i Register.Dlver1 (y2 % 256)
  write_register i Register.Dlver2 ((y2 >>> 8) % 256)
  write_register i Register.Dcr0 0x80

/-- `clear_screen` (src/lib.rs): a filled rectangle over the whole panel. -/
def clear_screen (i : Iface ε) (cfg : DisplayConfig) (color : Nat) :
    M ε Unit :=
  draw_filled_rectangle i cfg 0 0 (cfg.width - 1) (cfg.height - 1) color

/-- `set_active_window` (src/lib.rs): four little-endian 16-bit register
pairs. -/
def set_active_window (i : Iface ε) (x y width height : Nat) : M ε Unit := do
  write_register i Register.AwulX1 (x % 256)
  write_register i Register.AwulX2 ((x >>> 8) % 256)
  write_register i Register.AwulY1 (y % 256)
  write_register i Register.AwulY2 ((y >>> 8) % 256)
  write_register i Register.AwWth1 (width % 256)
  write_register i Register.AwWth2 ((width >>> 8) % 256)
  write_register i Register.AwHt1 (height % 256)
  write_register i Register.AwHt2 ((height >>> 8) % 256)

/-- `configure_main_window` (src/lib.rs).  `timing.width * 2` is `u16`
arithmetic, modelled mod 65536. -/
def configure_main_window (i : Iface ε) (timing : DisplayConfig) :
    M ε Unit := do
  write_register i Register.Mpwctr 0x04
  write_register i Register.Misa1 0x00
  write_register i Register.Misa2 0x00
  write_register i Register.Misa3 0x00
  write_register i Register.Misa4 0x00
  let width_bytes := (timing.width * 2) % 65536
  write_register i Register.Miw1 (width_bytes &&& 0xFF)
  write_register i Register.Miw2 ((width_bytes >>> 8) &&& 0xFF)
  write_register i Register.Mwulx1 0x00
  write_register i Register.Mwulx2 0x00
  write_register i Register.Mwuly1 0x00
  write_register i Register.Mwuly2 0x00
  write_register i Register.Cvssa1 0x00
  write_register i Register.Cvssa2 0x00
  write_register i Register.Cvssa3 0x00
  write_register i Register.Cvssa4 0x00
  write_register i Register.CvsImwth1 (width_bytes &&& 0xFF)
  write_register i Register.CvsImwth2 ((width_bytes >>> 8) &&& 0xFF)
  set_active_window i 0 0 timing.width timing.height
  write_register i Register.AwColor 0x01

end LT7683

namespace LT7683

/-- Abstract SPI bus underlying `SpiInterface` (`embedded_hal::spi::SpiDevice`):
the outcome of `spi.write(bytes)` and the bytes received by a full-duplex
`transfer_in_place` for a given transmitted frame. -/
structure SpiBus (ε : Type) where
  writeRes : List Nat → Except ε Unit
  transfer : List Nat → Except ε (List Nat)

/-- SPI `write_command` (src/lib.rs, `impl LT7683Interface for SpiInterface`):
send the 2-byte frame `[0x00, register]`.  The first component is the list
of frames put on the wire. -/
def spiWriteCommand (b : SpiBus ε) (reg : Nat) : List (List Nat) × Except ε Unit :=
  ([[0x00, reg]], b.writeRes [0x00, reg])

/-- SPI `write_data`: send the 2-byte frame `[0x80, data]`. -/
def spiWriteData (b : SpiBus ε) (d : Nat) : List (List Nat) × Except ε Unit :=
  ([[0x80, d]], b.writeRes [0x80, d])

/-- SPI `read_data`: exchange `[0xC0, 0x00]` and return the second received
byte (`buf[1]` after `transfer_in_place`). -/
def spiReadData (b : SpiBus ε) : List (List Nat) × Except ε Nat :=
  ([[0xC0, 0x00]],
    match b.transfer [0xC0, 0x00] with
    | Except.ok rx => Except.ok (rx.getD 1 0)
    | Except.error e => Except.error e)

/-- SPI `read_status`: exchange `[0x40, 0x00]` and return the second
received byte. -/
def spiReadStatus (b : SpiBus ε) : List (List Nat) × Except ε Nat :=
  ([[0x40, 0x00]],
    match b.transfer [0x40, 0x00] with
    | Except.ok rx => Except.ok (rx.getD 1 0)
    | Except.error e => Except.error e)

/-- Interface oracle on which every transport call succeeds; unsolicited
reads return 0. -/
def okIface : Iface Unit :=
  { writeCommandRes := fun _ => Except.ok ()
    writeDataRes := fun _ => Except.ok ()
    readDataRes := fun _ => Except.ok 0
    readStatusRes := fun _ => Except.ok 0
    setLowRes := fun _ => Except.ok ()
    setHighRes := fun _ => Except.ok () }

/-- The two write operations of the transport never fail. -/
def WritesOk (i : Iface ε) : Prop :=
  (∀ k, i.writeCommandRes k = Except.ok ()) ∧
  (∀ k, i.writeDataRes k = Except.ok ())

theorem okIface_writesOk : WritesOk okIface :=
  ⟨fun _ => rfl, fun _ => rfl⟩

/-- Trace fragment of a single `write_register` call. -/
def wrEv (reg b : Nat) : List Event :=
  [Event.cmd reg, Event.dat b]

/-- Trace fragment emitted by `set_foreground_color` for a given depth. -/
def fgEvents : ColorDepth → Nat → List Event
  | ColorDepth.Bpp16, c =>
      wrEv Register.Fgcr (((((c >>> 11) &&& 0x1F) <<< 3)) % 256) ++
      wrEv Register.Fgcg (((((c >>> 5) &&& 0x3F) <<< 2)) % 256) ++
      wrEv Register.Fgcb (((((c >>> 0) &&& 0x1F) <<< 3)) % 256)
  | ColorDepth.Bpp8, c =>
      wrEv Register.Fgcr ((c >>> 8) % 256) ++
      wrEv Register.Fgcg (c % 256) ++
      wrEv Register.Fgcb 0
  | ColorDepth.Bpp24, c =>
      wrEv Register.Fgcr ((c >>> 8) % 256) ++
      wrEv Register.Fgcg (c % 256) ++
      wrEv Register.Fgcb 0

/-- Trace fragment of the eight little-endian coordinate writes shared by
`draw_line` and `draw_filled_rectangle`. -/
def coordEvents (x1 y1 x2 y2 : Nat) : List Event :=
  wrEv Register.Dlhsr1 (x1 % 256) ++
  wrEv Register.Dlhsr2 ((x1 >>> 8) % 256) ++
  wrEv Register.Dlvsr1 (y1 % 256) ++
  wrEv Register.Dlvsr2 ((y1 >>> 8) % 256) ++
  wrEv Register.Dlher1 (x2 % 256) ++
  wrEv Register.Dlher2 ((x2 >>> 8) % 256) ++
  wrEv Register.Dlver1 (y2 % 256) ++
  wrEv Register.Dlver2 ((y2 >>> 8) % 256)

/-- Trace fragment of `set_active_window`. -/
def awEvents (x y width height : Nat) : List Event :=
  wrEv Register.AwulX1 (x % 256) ++
  wrEv Register.AwulX2 ((x >>> 8) % 256) ++
  wrEv Register.AwulY1 (y % 256) ++
  wrEv Register.AwulY2 ((y >>> 8) % 256) ++
  wrEv Register.AwWth1 (width % 256) ++
  wrEv Register.AwWth2 ((width >>> 8) % 256) ++
  wrEv Register.AwHt1 (height % 256) ++
  wrEv Register.AwHt2 ((height >>> 8) % 256)

/-- Trace fragment of `configure_main_window`. -/
def cmwEvents (timing : DisplayConfig) : List Event :=
  wrEv Register.Mpwctr 0x04 ++
  wrEv Register.Misa1 0x00 ++
  wrEv Register.Misa2 0x00 ++
  wrEv Register.Misa3 0x00 ++
  wrEv Register.Misa4 0x00 ++
  wrEv Register.Miw1 (((timing.width * 2) % 65536) &&& 0xFF) ++
  wrEv Register.Miw2 ((((timing.width * 2) % 65536) >>> 8) &&& 0xFF) ++
  wrEv Register.Mwulx1 0x00 ++
  wrEv Register.Mwulx2 0x00 ++
  wrEv Register.Mwuly1 0x00 ++
  wrEv Register.Mwuly2 0x00 ++
  wrEv Register.Cvssa1 0x00 ++
  wrEv Register.Cvssa2 0x00 ++
  wrEv Register.Cvssa3 0x00 ++
  wrEv Register.Cvssa4 0x00 ++
  wrEv Register.CvsImwth1 (((timing.width * 2) % 65536) &&& 0xFF) ++
  wrEv Register.CvsImwth2 ((((timing.width * 2) % 65536) >>> 8) &&& 0xFF) ++
  awEvents 0 0 timing.width timing.height ++
  wrEv Register.AwColor 0x01

/-- Poll rounds of `wait_sdram_ready`: a status read followed by a 10 ms
delay, repeated. -/
def pollEvents : Nat → List Event
  | 0 => []
  | n + 1 => Event.readSts :: Event.delayMs 10 :: pollEvents n

/-- Data bytes that a trace writes to a given register: the payload of each
`dat` event immediately preceded by `cmd reg`. -/
def regWrites (reg : Nat) : List Event → List Nat
  | Event.cmd r :: Event.dat b :: rest =>
      if r = reg then b :: regWrites reg rest else regWrites reg rest
  | _ :: rest => regWrites reg rest
  | [] => []

/-- All data bytes written by a trace, in order. -/
def datBytes (t : List Event) : List Nat :=
  t.filterMap fun e =>
    match e with
    | Event.dat b => some b
    | _ => none

theorem run_write_register (i : Iface ε) (h : WritesOk i) (reg b : Nat)
    (t : List Event) :
    write_register i reg b t = (t ++ wrEv reg b, Except.ok ()) := by
  simp [write_register, M.bind_eval, opWriteCommand, opWriteData, h.1, h.2,
    wrEv]

theorem run_set_foreground_color (i : Iface ε) (h : WritesOk i)
    (cfg : DisplayConfig) (c : Nat) (t : List Event) :
    set_foreground_color i cfg c t =
      (t ++ fgEvents cfg.color_depth c, Except.ok ()) := by
  cases hd : cfg.color_depth <;>
    simp [set_foreground_color, hd, M.bind_eval, M.pure_eval,
      run_write_register i h, fgEvents, List.append_assoc]

end LT7683

namespace LT7683

theorem run_draw_line (i : Iface ε) (h : WritesOk i) (cfg : DisplayConfig)
    (x1 y1 x2 y2 c : Nat) (t : List Event) :
    draw_line i cfg x1 y1 x2 y2 c t =
      (t ++ fgEvents cfg.color_depth c ++ coordEvents x1 y1 x2 y2 ++
        wrEv Register.Dcr0 0x80, Except.ok ()) := by
  simp [draw_line, M.bind_eval, run_set_foreground_color i h,
    run_write_register i h, coordEvents, List.append_assoc]

theorem run_draw_filled_rectangle (i : Iface ε) (h : WritesOk i)
    (cfg : DisplayConfig) (x1 y1 x2 y2 c : Nat) (t : List Event) :
    draw_filled_rectangle i cfg x1 y1 x2 y2 c t =
      (t ++ fgEvents cfg.color_depth c ++ coordEvents x1 y1 x2 y2 ++
        wrEv Register.Dcr0 0xB0, Except.ok ()) := by
  simp [draw_filled_rectangle, M.bind_eval, run_set_foreground_color i h,
    run_write_register i h, coordEvents, List.append_assoc]

theorem run_set_active_window (i : Iface ε) (h : WritesOk i)
    (x y width height : Nat) (t : List Event) :
    set_active_window i x y width height t =
      (t ++ awEvents x y width height, Except.ok ()) := by
  simp [set_active_window, M.bind_eval, run_write_register i h, awEvents,
    List.append_assoc]

theorem run_configure_main_window (i : Iface ε) (h : WritesOk i)
    (timing : DisplayConfig) (t : List Event) :
    configure_main_window i timing t =
      (t ++ cmwEvents timing, Except.ok ()) := by
  simp [configure_main_window, M.bind_eval, run_write_register i h,
    run_set_active_window i h, cmwEvents, List.append_assoc]

theorem countP_readSts_poll_step (t : List Event) :
    (t ++ [Event.readSts, Event.delayMs 10]).countP
        (fun e => Event.isReadSts e) =
      t.countP (fun e => Event.isReadSts e) + 1 := by
  simp [List.countP_append, List.countP_cons, Event.isReadSts]

theorem run_wait_go_timeout (i : Iface ε) (n : Nat) : ∀ (t : List Event),
    (∀ k, k < n →
      ∃ v, i.readStatusRes (t.countP (fun e => Event.isReadSts e) + k) =
          Except.ok v ∧ v &&& 0x04 = 0) →
    wait_sdram_ready_go i n t = (t ++ pollEvents n, Except.ok false) := by
  induction n with
  | zero =>
      intro t _
      simp [wait_sdram_ready_go, pollEvents, M.pure_eval]
  | succ n ih =>
      intro t h
      obtain ⟨v, hv, hbit⟩ := h 0 n.succ_pos
      have hv' : i.readStatusRes (t.countP (fun e => Event.isReadSts e)) =
          Except.ok v := by simpa using hv
      have hfalse : ((v &&& 0x04) != 0) = false := by
        simp [hbit]
      have h' : ∀ k, k < n →
          ∃ w, i.readStatusRes
              ((t ++ [Event.readSts, Event.delayMs 10]).countP
                (fun e => Event.isReadSts e) + k) =
            Except.ok w ∧ w &&& 0x04 = 0 := by
        intro k hk
        obtain ⟨w, hw, hb⟩ := h (k + 1) (Nat.succ_lt_succ hk)
        refine ⟨w, ?_, hb⟩
        rw [countP_readSts_poll_step, Nat.add_assoc, Nat.add_comm 1 k]
        exact hw
      have hrec := ih (t ++ [Event.readSts, Event.delayMs 10]) h'
      simp [wait_sdram_ready_go, M.bind_eval, is_sdram_ready, read_status,
        opReadStatus, hv', M.pure_eval, hfalse, opDelayMs] at hrec ⊢
      simp [hrec, pollEvents, List.append_assoc]

theorem run_wait_go_ready (i : Iface ε) (k : Nat) : ∀ (n : Nat) (t : List Event),
    k < n →
    (∀ j, j < k →
      ∃ v, i.readStatusRes (t.countP (fun e => Event.isReadSts e) + j) =
          Except.ok v ∧ v &&& 0x04 = 0) →
    (∃ w, i.readStatusRes (t.countP (fun e => Event.isReadSts e) + k) =
        Except.ok w ∧ w &&& 0x04 ≠ 0) →
    wait_sdram_ready_go i n t =
      (t ++ pollEvents k ++ [Event.readSts], Except.ok true) := by
  induction k with
  | zero =>
      intro n t hn _ hw
      obtain ⟨m, rfl⟩ : ∃ m, n = m + 1 := ⟨n - 1, by omega⟩
      obtain ⟨w, hw1, hw2⟩ := hw
      have hw1' : i.readStatusRes (t.countP (fun e => Event.isReadSts e)) =
          Except.ok w := by simpa using hw1
      have htrue : ((w &&& 0x04) != 0) = true := by
        simpa [bne_iff_ne] using hw2
      simp [wait_sdram_ready_go, M.bind_eval, is_sdram_ready, read_status,
        opReadStatus, hw1', M.pure_eval, htrue, pollEvents]
  | succ k ih =>
      intro n t hn hj hw
      obtain ⟨m, rfl⟩ : ∃ m, n = m + 1 := ⟨n - 1, by omega⟩
      obtain ⟨v, hv, hbit⟩ := hj 0 k.succ_pos
      have hv' : i.readStatusRes (t.countP (fun e => Event.isReadSts e)) =
          Except.ok v := by simpa using hv
      have hfalse : ((v &&& 0x04) != 0) = false := by
        simp [hbit]
      have hj' : ∀ j, j < k →
          ∃ w, i.readStatusRes
              ((t ++ [Event.readSts, Event.delayMs 10]).countP
                (fun e => Event.isReadSts e) + j) =
            Except.ok w ∧ w &&& 0x04 = 0 := by
        intro j hjk
        obtain ⟨w, hw', hb⟩ := hj (j + 1) (Nat.succ_lt_succ hjk)
        refine ⟨w, ?_, hb⟩
        rw [countP_readSts_poll_step, Nat.add_assoc, Nat.add_comm 1 j]
        exact hw'
      have hw' : ∃ w, i.readStatusRes
            ((t ++ [Event.readSts, Event.delayMs 10]).countP
              (fun e => Event.isReadSts e) + k) =
          Except.ok w ∧ w &&& 0x04 ≠ 0 := by
        obtain ⟨w, hw1, hw2⟩ := hw
        refine ⟨w, ?_, hw2⟩
        rw [countP_readSts_poll_step, Nat.add_assoc, Nat.add_comm 1 k]
        exact hw1
      have hrec := ih m (t ++ [Event.readSts, Event.delayMs 10])
        (by omega) hj' hw'
      simp [wait_sdram_ready_go, M.bind_eval, is_sdram_ready, read_status,
        opReadStatus, hv', M.pure_eval, hfalse, opDelayMs] at hrec ⊢
      simp [hrec, pollEvents, List.append_assoc]

theorem run_hardware_reset (i : Iface ε) (t : List Event) :
    hardware_reset i t =
      (t ++ [Event.resetLow, Event.delayMs 10, Event.resetHigh,
        Event.delayMs 100], Except.ok ()) := by
  simp [hardware_reset, M.bind_eval, M.discard, opSetLow, opSetHigh,
    opDelayMs, List.append_assoc]

end LT7683

instance [DecidableEq ε] [DecidableEq α] : DecidableEq (Except ε α) := fun x y =>
  match x, y with
  | Except.ok a, Except.ok b =>
      if h : a = b then Decidable.isTrue (by rw [h])
      else Decidable.isFalse (by intro hc; cases hc; exact h rfl)
  | Except.ok _, Except.error _ => Decidable.isFalse (by intro hc; cases hc)
  | Except.error _, Except.ok _ => Decidable.isFalse (by intro hc; cases hc)
  | Except.error e, Except.error f =>
      if h : e = f then Decidable.isTrue (by rw [h])
      else Decidable.isFalse (by intro hc; cases hc; exact h rfl)

namespace LT7683

/-- Transport oracle whose status reads always report the core-busy bit
(bit 3) set and whose writes succeed. -/
def busyIface : Iface Unit :=
  { okIface with readStatusRes := fun _ => Except.ok 0x08 }

/-- Transport oracle whose first three status reads report no SDRAM-ready
bit and every later one reports it set. -/
def readyAt3Iface : Iface Unit :=
  { okIface with
    readStatusRes := fun k => Except.ok (if k < 3 then 0 else 0x04) }

/-- SPI bus on which writes succeed and every full-duplex exchange receives
the bytes `[0, 7]`. -/
def demoBus : SpiBus Unit :=
  { writeRes := fun _ => Except.ok ()
    transfer := fun _ => Except.ok [0, 7] }

/-- Default configuration except for a 24-bit color depth. -/
def cfg24 : DisplayConfig :=
  { DisplayConfig.default with color_depth := ColorDepth.Bpp24 }

/-- Foreground-color register bytes predicted by the spec sentence behind
claim C1: the input is read as a 24-bit packed 0x00RRGGBB value and each
channel byte is masked according to the color depth (8-bit: R&0xE0, G&0xE0,
B&0xC0; 16-bit: R&0xF8, G&0xFC, B&0xF8; 24-bit: unmodified).  Stated from
the spec for comparison with the source-derived `set_foreground_color`. -/
def specFgBytes (d : ColorDepth) (color : Nat) : List Nat :=
  let r := (color >>> 16) &&& 0xFF
  let g := (color >>> 8) &&& 0xFF
  let b := color &&& 0xFF
  match d with
  | ColorDepth.Bpp8 => [r &&& 0xE0, g &&& 0xE0, b &&& 0xC0]
  | ColorDepth.Bpp16 => [r &&& 0xF8, g &&& 0xFC, b &&& 0xF8]
  | ColorDepth.Bpp24 => [r, g, b]

/-- C1, counterexample: at the default (16-bit) depth the source writes the
RGB565 expansion of its 16-bit color argument, not the depth-masked bytes
of a 24-bit packed color.  For color 0xFFAA the source writes
[0xF8, 0xF4, 0x50] where the claimed encoding gives [0x00, 0xFC, 0xA8]. -/
theorem C1_counterexample :
    datBytes (set_foreground_color okIface DisplayConfig.default 0xFFAA []).1 =
      [0xF8, 0xF4, 0x50] ∧
    specFgBytes DisplayConfig.default.color_depth 0xFFAA =
      [0x00, 0xFC, 0xA8] ∧
    datBytes (set_foreground_color okIface DisplayConfig.default 0xFFAA []).1 ≠
      specFgBytes DisplayConfig.default.color_depth 0xFFAA := by
  decide

/-- C1, amended: `set_foreground_color` takes a 16-bit color; when the
configured depth is 16-bit it decodes it as RGB565 and expands each channel
into the 8-bit register range (`Fgcr = r5 <<< 3`, `Fgcg = g6 <<< 2`,
`Fgcb = b5 <<< 3`); at 8-bit or 24-bit depth it writes the high byte to
Fgcr, the low byte to Fgcg, and 0 to Fgcb (the trace shapes are spelled out
by `fgEvents`). -/
theorem C1_fg_trace {ε : Type} (i : Iface ε) (h : WritesOk i)
    (cfg : DisplayConfig) (c : Nat) (t : List Event) :
    set_foreground_color i cfg c t =
      (t ++ fgEvents cfg.color_depth c, Except.ok ()) :=
  run_set_foreground_color i h cfg c t

/-- C1, witness: concrete run at 16-bit depth with color 0xFFAA. -/
theorem C1_witness :
    (set_foreground_color okIface DisplayConfig.default 0xFFAA []).1 =
      [Event.cmd Register.Fgcr, Event.dat 0xF8, Event.cmd Register.Fgcg,
       Event.dat 0xF4, Event.cmd Register.Fgcb, Event.dat 0x50] := by
  rw [C1_fg_trace okIface okIface_writesOk DisplayConfig.default 0xFFAA []]
  decide

/-- C2: the SPI transport frames every access as exactly one 2-byte
exchange — `write_command(reg)` sends `[0x00, reg]`, `write_data(b)` sends
`[0x80, b]`, `read_data` exchanges `[0xC0, 0x00]` and returns the second
received byte, `read_status` exchanges `[0x40, 0x00]` and returns the
second received byte. -/
theorem C2_spi_framing {ε : Type} (b : SpiBus ε) (reg d : Nat) :
    (spiWriteCommand b reg).1 = [[0x00, reg]] ∧
    (spiWriteCommand b reg).2 = b.writeRes [0x00, reg] ∧
    (spiWriteData b d).1 = [[0x80, d]] ∧
    (spiWriteData b d).2 = b.writeRes [0x80, d] ∧
    (spiReadData b).1 = [[0xC0, 0x00]] ∧
    (∀ a v, b.transfer [0xC0, 0x00] = Except.ok [a, v] →
      (spiReadData b).2 = Except.ok v) ∧
    (spiReadStatus b).1 = [[0x40, 0x00]] ∧
    (∀ a v, b.transfer [0x40, 0x00] = Except.ok [a, v] →
      (spiReadStatus b).2 = Except.ok v) := by
  refine ⟨rfl, rfl, rfl, rfl, rfl, ?_, rfl, ?_⟩
  · intro a v hv
    simp [spiReadData, hv]
  · intro a v hv
    simp [spiReadStatus, hv]

/-- C2, witness: on a bus answering `[0, 7]`, `read_data` sends
`[0xC0, 0x00]` and returns 7. -/
theorem C2_witness :
    (spiReadData demoBus).1 = [[0xC0, 0x00]] ∧
    (spiReadData demoBus).2 = Except.ok 7 := by
  have h := C2_spi_framing demoBus 0 1
  exact ⟨h.2.2.2.2.1, h.2.2.2.2.2.1 0 7 rfl⟩

/-- C3, counterexample: `draw_line` performs no status read at all — even
against a transport whose status reads always report core-busy it returns
`Ok(())` with zero status reads in its trace, refuting the claimed
poll-until-core-busy-clears step. -/
theorem C3_counterexample :
    (draw_line busyIface DisplayConfig.default 10 20 300 400 0 []).2 =
      Except.ok () ∧
    (draw_line busyIface DisplayConfig.default 10 20 300 400 0
        []).1.countP (fun e => Event.isReadSts e) = 0 := by
  decide

/-- C3, amended: `draw_line` sets the foreground color, writes the point-1
and point-2 coordinates little-endian into Dlhsr1/2, Dlvsr1/2, Dlher1/2,
Dlver1/2, then writes Dcr0 = 0x80, in that exact order, and returns without
any status polling. -/
theorem C3_draw_line_sequence {ε : Type} (i : Iface ε) (h : WritesOk i)
    (cfg : DisplayConfig) (x1 y1 x2 y2 c : Nat) (t : List Event) :
    draw_line i cfg x1 y1 x2 y2 c t =
      (t ++ fgEvents cfg.color_depth c ++ coordEvents x1 y1 x2 y2 ++
        wrEv Register.Dcr0 0x80, Except.ok ()) ∧
    (draw_line i cfg x1 y1 x2 y2 c t).1.countP
        (fun e => Event.isReadSts e) =
      t.countP (fun e => Event.isReadSts e) := by
  have hrun := run_draw_line i h cfg x1 y1 x2 y2 c t
  refine ⟨hrun, ?_⟩
  rw [hrun]
  cases cfg.color_depth <;>
    simp [fgEvents, coordEvents, wrEv, List.countP_append, List.countP_cons,
      Event.isReadSts]

/-- C3, witness: concrete `draw_line(10, 20, 300, 400, 5)` run. -/
theorem C3_witness :
    draw_line okIface DisplayConfig.default 10 20 300 400 5 [] =
      (fgEvents ColorDepth.Bpp16 5 ++ coordEvents 10 20 300 400 ++
        wrEv Register.Dcr0 0x80, Except.ok ()) := by
  have h := (C3_draw_line_sequence okIface okIface_writesOk
    DisplayConfig.default 10 20 300 400 5 []).1
  simpa [DisplayConfig.default] using h

/-- C4, counterexample: `draw_filled_rectangle` never writes the Dcr1
register; it triggers the draw by writing 0xB0 to Dcr0 and performs no
status read. -/
theorem C4_counterexample :
    regWrites Register.Dcr1
      (draw_filled_rectangle busyIface DisplayConfig.default 1 2 3 4 5
        []).1 = [] ∧
    regWrites Register.Dcr0
      (draw_filled_rectangle busyIface DisplayConfig.default 1 2 3 4 5
        []).1 = [0xB0] ∧
    (draw_filled_rectangle busyIface DisplayConfig.default 1 2 3 4 5
        []).1.countP (fun e => Event.isReadSts e) = 0 := by
  decide

/-- C4, amended: `draw_filled_rectangle` performs the same coordinate
setup as `draw_line` but triggers the draw by writing 0xB0 to the Dcr0
register, and returns without any status polling. -/
theorem C4_draw_filled_rectangle_sequence {ε : Type} (i : Iface ε)
    (h : WritesOk i) (cfg : DisplayConfig) (x1 y1 x2 y2 c : Nat)
    (t : List Event) :
    draw_filled_rectangle i cfg x1 y1 x2 y2 c t =
      (t ++ fgEvents cfg.color_depth c ++ coordEvents x1 y1 x2 y2 ++
        wrEv Register.Dcr0 0xB0, Except.ok ()) ∧
    (draw_filled_rectangle i cfg x1 y1 x2 y2 c t).1.countP
        (fun e => Event.isReadSts e) =
      t.countP (fun e => Event.isReadSts e) := by
  have hrun := run_draw_filled_rectangle i h cfg x1 y1 x2 y2 c t
  refine ⟨hrun, ?_⟩
  rw [hrun]
  cases cfg.color_depth <;>
    simp [fgEvents, coordEvents, wrEv, List.countP_append, List.countP_cons,
      Event.isReadSts]

/-- C4, witness: concrete `draw_filled_rectangle(1, 2, 3, 4, 5)` run. -/
theorem C4_witness :
    draw_filled_rectangle okIface DisplayConfig.default 1 2 3 4 5 [] =
      (fgEvents ColorDepth.Bpp16 5 ++ coordEvents 1 2 3 4 ++
        wrEv Register.Dcr0 0xB0, Except.ok ()) := by
  have h := (C4_draw_filled_rectangle_sequence okIface okIface_writesOk
    DisplayConfig.default 1 2 3 4 5 []).1
  simpa [DisplayConfig.default] using h

/-- C5: the symbolic register names carry their documented datasheet
addresses — Srr = 0x00, Ccr = 0x01, Dpcr = 0x12, Fgcr = 0xD2,
Sdrar = 0xE0 in both copies of the map, and BteCtrl0 = 0x90 in the
src/registers.rs copy (the src/lib.rs copy stops before the BTE group). -/
theorem C5_register_addresses :
    Register.Srr = 0x00 ∧ Register.Ccr = 0x01 ∧ Register.Dpcr = 0x12 ∧
    Register.Fgcr = 0xD2 ∧ Register.Sdrar = 0xE0 ∧
    RegistersRs.Srr = 0x00 ∧ RegistersRs.Ccr = 0x01 ∧
    RegistersRs.Dpcr = 0x12 ∧ RegistersRs.Fgcr = 0xD2 ∧
    RegistersRs.Sdrar = 0xE0 ∧ RegistersRs.BteCtrl0 = 0x90 := by
  decide

end LT7683

namespace LT7683

/-- C6: when no status read of the first 100 fails or reports the
SDRAM-ready bit (bit 2), `wait_sdram_ready` performs exactly 100 status
reads, each followed by a 10 ms delay, and returns `Ok(false)` — the
timeout is not turned into an error; and when the ready bit first appears
on attempt k (k < 100, earlier reads clean), it returns `Ok(true)`
immediately after that read, with no further delay. -/
theorem countP_readSts_pollEvents (n : Nat) :
    (pollEvents n).countP (fun e => Event.isReadSts e) = n := by
  induction n with
  | zero => simp [pollEvents]
  | succ n ih =>
      have h1 : Event.isReadSts Event.readSts = true := rfl
      have h2 : Event.isReadSts (Event.delayMs 10) = false := rfl
      simp [pollEvents, List.countP_cons, h1, h2, ih]

theorem C6_wait_sdram_ready {ε : Type} (i : Iface ε) :
    ((∀ k, k < 100 →
        ∃ v, i.readStatusRes k = Except.ok v ∧ v &&& 0x04 = 0) →
      wait_sdram_ready i [] = (pollEvents 100, Except.ok false) ∧
      (pollEvents 100).countP (fun e => Event.isReadSts e) = 100) ∧
    (∀ k, k < 100 →
      (∀ j, j < k →
        ∃ v, i.readStatusRes j = Except.ok v ∧ v &&& 0x04 = 0) →
      (∃ w, i.readStatusRes k = Except.ok w ∧ w &&& 0x04 ≠ 0) →
      wait_sdram_ready i [] =
        (pollEvents k ++ [Event.readSts], Except.ok true)) := by
  constructor
  · intro h
    have hrun := run_wait_go_timeout i 100 [] (by simpa using h)
    exact ⟨by simpa [wait_sdram_ready] using hrun,
      countP_readSts_pollEvents 100⟩
  · intro k hk hj hw
    have hrun := run_wait_go_ready i k 100 [] hk (by simpa using hj)
      (by simpa using hw)
    simpa [wait_sdram_ready] using hrun

/-- C6, witness: against an oracle whose statuses are always 0 the wait
times out with `Ok(false)` after 100 poll rounds; against one whose fourth
status read reports bit 2 it returns `Ok(true)` after 3 poll rounds and a
fourth read. -/
theorem C6_witness :
    wait_sdram_ready okIface [] = (pollEvents 100, Except.ok false) ∧
    wait_sdram_ready readyAt3Iface [] =
      (pollEvents 3 ++ [Event.readSts], Except.ok true) := by
  constructor
  · exact ((C6_wait_sdram_ready okIface).1 (fun k _ => ⟨0, rfl, rfl⟩)).1
  · refine (C6_wait_sdram_ready readyAt3Iface).2 3 (by omega) ?_ ?_
    · intro j hj
      exact ⟨0, by simp [readyAt3Iface, okIface, hj], rfl⟩
    · exact ⟨0x04, by simp [readyAt3Iface, okIface], by decide⟩

/-- C7, counterexample: with a 24-bit configured depth (code 0x02) the
main-window configuration still writes 0x01 into AwColor. -/
theorem C7_counterexample :
    regWrites Register.AwColor
      (configure_main_window okIface cfg24 []).1 = [0x01] ∧
    ColorDepth.code cfg24.color_depth = 0x02 ∧
    regWrites Register.AwColor
        (configure_main_window okIface cfg24 []).1 ≠
      [ColorDepth.code cfg24.color_depth] := by
  decide

/-- C7, amended: `configure_main_window` emits the fixed register sequence
`cmwEvents` — ending with the active window set to (0, 0, width, height)
followed by AwColor = 0x01 — for every configuration, regardless of its
ColorDepth. -/
theorem C7_main_window_trace {ε : Type} (i : Iface ε) (h : WritesOk i)
    (timing : DisplayConfig) (t : List Event) :
    configure_main_window i timing t =
      (t ++ cmwEvents timing, Except.ok ()) ∧
    regWrites Register.AwColor (cmwEvents timing) = [0x01] := by
  refine ⟨run_configure_main_window i h timing t, ?_⟩
  simp [cmwEvents, awEvents, wrEv, regWrites, Register.AwColor,
    Register.Mpwctr, Register.Misa1, Register.Misa2, Register.Misa3,
    Register.Misa4, Register.Miw1, Register.Miw2, Register.Mwulx1,
    Register.Mwulx2, Register.Mwuly1, Register.Mwuly2, Register.Cvssa1,
    Register.Cvssa2, Register.Cvssa3, Register.Cvssa4, Register.CvsImwth1,
    Register.CvsImwth2, Register.AwulX1, Register.AwulX2, Register.AwulY1,
    Register.AwulY2, Register.AwWth1, Register.AwWth2, Register.AwHt1,
    Register.AwHt2]

/-- C7, witness: concrete run at the 24-bit depth configuration. -/
theorem C7_witness :
    configure_main_window okIface cfg24 [] =
      (cmwEvents cfg24, Except.ok ()) := by
  have h := (C7_main_window_trace okIface okIface_writesOk cfg24 []).1
  simpa using h

/-- C8: `clear_screen(color)` is literally
`draw_filled_rectangle(0, 0, width - 1, height - 1, color)` on the held
configuration — the same computation, hence the same event trace and
result against any transport; under the default configuration this is
`draw_filled_rectangle(0, 0, 1023, 599, color)`. -/
theorem C8_clear_screen_equiv {ε : Type} (i : Iface ε)
    (cfg : DisplayConfig) (c : Nat) :
    clear_screen i cfg c =
      draw_filled_rectangle i cfg 0 0 (cfg.width - 1) (cfg.height - 1) c ∧
    clear_screen i DisplayConfig.default c =
      draw_filled_rectangle i DisplayConfig.default 0 0 1023 599 c :=
  ⟨rfl, rfl⟩

/-- C9: the color parameter is 16-bit, and at every depth other than
16-bit `set_foreground_color` writes Fgcr = high byte, Fgcg = low byte and
Fgcb = 0. -/
theorem C9_fg_color_non16 {ε : Type} (i : Iface ε) (h : WritesOk i)
    (cfg : DisplayConfig) (hd : cfg.color_depth ≠ ColorDepth.Bpp16)
    (c : Nat) (hc : c < 65536) (t : List Event) :
    set_foreground_color i cfg c t =
      (t ++ (wrEv Register.Fgcr (c >>> 8) ++ wrEv Register.Fgcg (c % 256) ++
        wrEv Register.Fgcb 0), Except.ok ()) := by
  have hrun := run_set_foreground_color i h cfg c t
  have hdiv : c >>> 8 = c / 256 := by
    rw [Nat.shiftRight_eq_div_pow]
  have hlt : c >>> 8 < 256 := by
    rw [hdiv]
    exact Nat.div_lt_of_lt_mul (by omega)
  have h8 : (c >>> 8) % 256 = c >>> 8 := Nat.mod_eq_of_lt hlt
  cases hcd : cfg.color_depth with
  | Bpp16 => exact absurd hcd hd
  | Bpp8 =>
      rw [hrun, hcd]
      simp [fgEvents, h8]
  | Bpp24 =>
      rw [hrun, hcd]
      simp [fgEvents, h8]

/-- C9, witness: concrete run at 24-bit depth with color 0x1234. -/
theorem C9_witness :
    set_foreground_color okIface cfg24 0x1234 [] =
      (wrEv Register.Fgcr 0x12 ++ wrEv Register.Fgcg 0x34 ++
        wrEv Register.Fgcb 0, Except.ok ()) := by
  have h := C9_fg_color_non16 okIface okIface_writesOk cfg24 (by decide)
    0x1234 (by decide) []
  simpa using h

/-- C10: `hardware_reset` returns `Ok(())` and emits the fixed
low / 10 ms / high / 100 ms reset sequence for every transport oracle —
including oracles whose `set_low`/`set_high` calls fail — because the
results of the reset-pin calls are discarded. -/
theorem C10_hardware_reset_infallible {ε : Type} (i : Iface ε)
    (t : List Event) :
    hardware_reset i t =
      (t ++ [Event.resetLow, Event.delayMs 10, Event.resetHigh,
        Event.delayMs 100], Except.ok ()) :=
  run_hardware_reset i t

end LT7683
